import Mathlib

/-!
Shallow embedding of the CxKitty web worker-process manager
(`web/chaoxingWorker.py`, `web/utils.py`, `app.py`).

Time values (`time.time()` results and differences) are modelled as `Int`
seconds.  The rich-console HTML rendering performed by
`ChaoxingWebConsole.collect_output` is outside the capture contract (the spec
scopes out "HTML/styling rendering details beyond the capture contract"), so a
printed text is modelled as producing one self-contained fragment equal to the
text itself; everything about buffering, diffing, the input queue, the
registry, and the garbage collector is translated operation by operation from
the Python source.
-/

set_option autoImplicit false

namespace CxKitty

/-- Enum `ChaoxingProcessState` from `web/utils.py`: INIT / RUNNING /
SUCCESS / Failed. -/
inductive ChaoxingProcessState where
  | INIT
  | RUNNING
  | SUCCESS
  | Failed
deriving DecidableEq, Repr

/-- State of a `ChaoxingWebConsole` (`web/chaoxingWorker.py`): the web-mode
flag, the `last_output` snapshot used by `get_update_output`, and the
`output_collector` deque of rendered fragments (`maxlen=50`). -/
structure ChaoxingWebConsole where
  mode : Bool
  last_output : String
  output_collector : List String
deriving DecidableEq, Repr

/-- State of a `ChaoxingProcess` (`web/chaoxingWorker.py`): id, optional
phone, lifecycle state, last refresh timestamp, alive flag, and its console. -/
structure ChaoxingProcess where
  process_id : String
  phone : Option String
  state : ChaoxingProcessState
  last_refresh_time : Int
  alive : Bool
  console : ChaoxingWebConsole
deriving DecidableEq, Repr

/-- `check_timeout` from `web/utils.py`: a RUNNING process times out after
strictly more than 86400 seconds without refresh, any other state after
strictly more than 300 seconds. -/
def check_timeout (now : Int) (p : ChaoxingProcess) : Bool :=
  if p.state = ChaoxingProcessState.RUNNING then
    decide (now - p.last_refresh_time > 86400)
  else
    decide (now - p.last_refresh_time > 300)

/-- `deque.append` on `output_collector` with `maxlen=50`: when the deque is
full the oldest (leftmost) fragment is dropped before the new one is added. -/
def deque_append (buf : List String) (s : String) : List String :=
  if buf.length < 50 then buf ++ [s] else buf.drop 1 ++ [s]

/-- `ChaoxingWebConsole.print` in web mode: the rendered fragment of the
printed text is appended to `output_collector` (via `collect_output`); in
attended mode nothing is recorded. -/
def consolePrint (c : ChaoxingWebConsole) (text : String) : ChaoxingWebConsole :=
  if c.mode then
    { c with output_collector := deque_append c.output_collector text }
  else
    c

/-- `ChaoxingWebConsole.get_output`: `None` when not in web mode, otherwise
the concatenation (`"".join`) of the collected fragments, oldest first. -/
def get_output (c : ChaoxingWebConsole) : Option String :=
  if c.mode then some (String.join c.output_collector) else none

/-- `ChaoxingWebConsole.get_update_output`: computes the full output, blanks
it when it equals `last_output`, stores the (possibly blanked) value back into
`last_output`, and returns it.  Returns the updated console alongside. -/
def get_update_output (c : ChaoxingWebConsole) : Option String × ChaoxingWebConsole :=
  if c.mode then
    let output := String.join c.output_collector
    let output2 := if c.last_output = output then "" else output
    (some output2, { c with last_output := output2 })
  else
    (none, c)

/-- The `input_queue` dict of `ChaoxingWebPrompt` (`web/utils.py`), modelled
as an insertion-ordered association list from process id to the pending
answer (`none` = slot created but unanswered). -/
abbrev InputQueue := List (String × Option String)

/-- `process_id in list(self.input_queue.keys())`. -/
def dict_contains (q : InputQueue) (k : String) : Bool :=
  q.any (fun kv => decide (kv.1 = k))

/-- `self.input_queue[process_id]` as a total lookup: `some v` when the key is
present with value `v`, `none` when absent. -/
def dict_get (q : InputQueue) (k : String) : Option (Option String) :=
  (q.find? (fun kv => decide (kv.1 = k))).map (fun kv => kv.2)

/-- `self.input_queue[k] = v`: update in place when the key exists (dict
assignment keeps insertion order), otherwise insert at the end. -/
def dict_set (q : InputQueue) (k : String) (v : Option String) : InputQueue :=
  if dict_contains q k then
    q.map (fun kv => if kv.1 = k then (k, v) else kv)
  else
    q ++ [(k, v)]

/-- `self.input_queue.pop(k)` (the removal part): drop the entry for `k`. -/
def dict_pop (q : InputQueue) (k : String) : InputQueue :=
  q.eraseP (fun kv => decide (kv.1 = k))

/-- Result of `ChaoxingWebPrompt.ask`: Python returns `None` (no answer yet),
the string `"timeout"`, the popped answer value, or - outside web mode - the
result of a terminal `Prompt.ask`. -/
inductive AskResult where
  | noAnswer
  | timeoutResult
  | answer (v : String)
  | attended
deriving DecidableEq, Repr

/-- `ChaoxingWebPrompt.ask(text, console)` from `web/utils.py`, in web mode:
if the process id is not in the input queue, insert it with value `None` and
print the prompt; then, if the stored value is non-`None`, pop and return it;
otherwise return `"timeout"` (marking the process dead) when `check_timeout`
holds, else `None`.  The queue and the process (console and alive flag) are
threaded explicitly.  At the value check the key is always present, so the
`getD none` default is never the source of the `none` branch. -/
def ask (now : Int) (q : InputQueue) (text : String) (p : ChaoxingProcess) :
    AskResult × InputQueue × ChaoxingProcess :=
  if p.console.mode then
    let pid := p.process_id
    let inQueue := dict_contains q pid
    let q1 := if inQueue then q else dict_set q pid none
    let p1 := if inQueue then p else { p with console := consolePrint p.console text }
    match (dict_get q1 pid).getD none with
    | some v => (AskResult.answer v, dict_pop q1 pid, p1)
    | none =>
      if check_timeout now p then
        (AskResult.timeoutResult, q1, { p1 with alive := false })
      else
        (AskResult.noAnswer, q1, p1)
  else
    (AskResult.attended, q, p)

/-- `send_value` endpoint from `app.py`: if the process id is a key of the
input queue, assign the value; otherwise the queue is left unchanged. -/
def send_value (q : InputQueue) (process_id : String) (value : String) : InputQueue :=
  if dict_contains q process_id then dict_set q process_id (some value) else q

/-- `ChaoxingProcess.to_running`. -/
def to_running (p : ChaoxingProcess) : ChaoxingProcess :=
  { p with state := ChaoxingProcessState.RUNNING }

/-- `ChaoxingProcess.to_success`. -/
def to_success (p : ChaoxingProcess) : ChaoxingProcess :=
  { p with state := ChaoxingProcessState.SUCCESS }

/-- `ChaoxingProcess.to_failed`. -/
def to_failed (p : ChaoxingProcess) : ChaoxingProcess :=
  { p with state := ChaoxingProcessState.Failed }

/-- `ChaoxingProcess.to_init`. -/
def to_init (p : ChaoxingProcess) : ChaoxingProcess :=
  { p with state := ChaoxingProcessState.INIT }

/-- Forward reachability in the intended lifecycle
Init -> Running -> (Success | Failed): `state_le a b` holds when `b` is
reachable from `a` by zero or more forward transitions. -/
def state_le (a b : ChaoxingProcessState) : Bool :=
  match a, b with
  | ChaoxingProcessState.INIT, _ => true
  | ChaoxingProcessState.RUNNING, ChaoxingProcessState.RUNNING => true
  | ChaoxingProcessState.RUNNING, ChaoxingProcessState.SUCCESS => true
  | ChaoxingProcessState.RUNNING, ChaoxingProcessState.Failed => true
  | ChaoxingProcessState.SUCCESS, ChaoxingProcessState.SUCCESS => true
  | ChaoxingProcessState.Failed, ChaoxingProcessState.Failed => true
  | _, _ => false

/-- One step of the `GarbageCollector.run` sweep loop
(`for task in self.multitasking.tasks: if check_timeout(task): task.alive =
False; self.multitasking.tasks.remove(task)`), with Python's list-iterator
semantics made explicit: `i` is the iterator's index into the current list;
removing the element at the current index shifts later elements down, so the
iterator's next fetch skips the element that followed the removed one.  The
fuel argument bounds the number of iterations (the index grows by one per
iteration while the list never grows, so `l.length + 1` fuel is enough).
Returns the surviving list together with the removed records, each with
`alive` set to `false`. -/
def gc_loop (now : Int) :
    Nat → Nat → List ChaoxingProcess → List ChaoxingProcess × List ChaoxingProcess
  | 0, _, l => (l, [])
  | fuel + 1, i, l =>
    if h : i < l.length then
      let t := l[i]
      if check_timeout now t then
        let rest := gc_loop now fuel (i + 1) (l.erase t)
        (rest.1, { t with alive := false } :: rest.2)
      else
        gc_loop now fuel (i + 1) l
    else
      (l, [])

/-- One full tick of `GarbageCollector.run` over the task list. -/
def gc_tick (now : Int) (tasks : List ChaoxingProcess) :
    List ChaoxingProcess × List ChaoxingProcess :=
  gc_loop now (tasks.length + 1) 0 tasks

/-- `Multitasking.create_process(process_id)`: appends a fresh
`ChaoxingProcess(process_id=process_id, web_mode=True)` - note that no phone
is passed, so the new record's `phone` is `None`; `state` starts at INIT,
`alive` at `True`, and `last_refresh_time` at the current time. -/
def create_process (now : Int) (tasks : List ChaoxingProcess) (process_id : String) :
    List ChaoxingProcess :=
  tasks ++ [{ process_id := process_id
              phone := none
              state := ChaoxingProcessState.INIT
              last_refresh_time := now
              alive := true
              console := { mode := true, last_output := "", output_collector := [] } }]

/-- `Multitasking.get_process(process_id)`: first task with a matching id,
`None` when there is none. -/
def get_process (tasks : List ChaoxingProcess) (process_id : String) :
    Option ChaoxingProcess :=
  tasks.find? (fun t => decide (t.process_id = process_id))

/-- `Multitasking.get_process_id(phone)`: id of the first task whose stored
phone equals the argument, `None` when there is none. -/
def get_process_id (tasks : List ChaoxingProcess) (phone : String) : Option String :=
  (tasks.find? (fun t => decide (t.phone = some phone))).map (fun t => t.process_id)

/-- The `/get_process_id` endpoint of `app.py`: look the phone up; when no
process is found, mint a fresh id (`uuid4().hex`, modelled as the `fresh_id`
argument) and create a process for it.  Returns the reported id and the
updated task list. -/
def app_get_process_id (now : Int) (fresh_id : String) (tasks : List ChaoxingProcess)
    (phone : String) : String × List ChaoxingProcess :=
  match get_process_id tasks phone with
  | some pid => (pid, tasks)
  | none => (fresh_id, create_process now tasks fresh_id)

/-- The `/get_process_output` endpoint of `app.py`: it dereferences
`get_process(process_id)` without a `None` check, so a missing process raises
(`AttributeError`), modelled as `Except.error ()`. -/
def get_process_output (tasks : List ChaoxingProcess) (process_id : String) :
    Except Unit (Option String) :=
  match get_process tasks process_id with
  | none => Except.error ()
  | some t => Except.ok (get_output t.console)

/-- Sets `last_refresh_time` on the first task with the given id, mirroring
the in-place mutation of the object returned by `get_process`. -/
def update_first (tasks : List ChaoxingProcess) (process_id : String) (now : Int) :
    List ChaoxingProcess :=
  match tasks with
  | [] => []
  | t :: rest =>
    if t.process_id = process_id then
      { t with last_refresh_time := now } :: rest
    else
      t :: update_first rest process_id now

/-- The `/update_process_refresh_time` endpoint of `app.py`: unlike
`/get_process_output` it checks `get_process` for `None` and answers with an
`"error"` status instead of faulting; otherwise it refreshes the timestamp
and answers `"success"`. -/
def update_process_refresh_time (now : Int) (tasks : List ChaoxingProcess)
    (process_id : String) : String × List ChaoxingProcess :=
  match get_process tasks process_id with
  | none => ("error", tasks)
  | some _ => ("success", update_first tasks process_id now)

/-- A web-mode console in its initial state (`record=True`, empty collector,
empty snapshot). -/
def webConsole0 : ChaoxingWebConsole :=
  { mode := true, last_output := "", output_collector := [] }

/-- Concrete process record builder used by the concrete test inputs. -/
def mkProc (pid : String) (st : ChaoxingProcessState) (lrt : Int) : ChaoxingProcess :=
  { process_id := pid
    phone := none
    state := st
    last_refresh_time := lrt
    alive := true
    console := webConsole0 }

/-!
Helper lemmas about the input-queue dictionary operations, the `ask`
control flow, the reaper loop, and the bounded output buffer.
-/

theorem dict_contains_false_iff (q : InputQueue) (k : String) :
    dict_contains q k = false ↔ ∀ kv ∈ q, kv.1 ≠ k := by
  simp [dict_contains]

theorem find_append_singleton (q : InputQueue) (k : String) (v : Option String)
    (h : ∀ kv ∈ q, kv.1 ≠ k) :
    (q ++ [(k, v)]).find? (fun kv => decide (kv.1 = k)) = some (k, v) := by
  induction q with
  | nil => simp [List.find?]
  | cons kv q ih =>
    have hne : kv.1 ≠ k := h kv (List.mem_cons_self kv q)
    have hd : (decide (kv.1 = k)) = false := by simp [hne]
    simp only [List.cons_append, List.find?, hd]
    exact ih (fun x hx => h x (List.mem_cons_of_mem kv hx))

theorem dict_get_set_none (q : InputQueue) (k : String)
    (h : dict_contains q k = false) :
    dict_get (dict_set q k none) k = some none := by
  rw [dict_set, if_neg (by simp [h])]
  rw [dict_get, find_append_singleton q k none ((dict_contains_false_iff q k).1 h)]
  rfl

theorem dict_get_some_contains (q : InputQueue) (k : String) (w : Option String)
    (h : dict_get q k = some w) : dict_contains q k = true := by
  rw [dict_get] at h
  obtain ⟨kv, hfind, -⟩ := Option.map_eq_some'.1 h
  have hmem := List.mem_of_find?_eq_some hfind
  have hp := List.find?_some hfind
  simp only [decide_eq_true_eq] at hp
  simp only [dict_contains, List.any_eq_true]
  exact ⟨kv, hmem, by simp [hp]⟩

theorem dict_get_set_of_contains (q : InputQueue) (k : String) (v : Option String)
    (h : dict_contains q k = true) :
    dict_get (dict_set q k v) k = some v := by
  rw [dict_set, if_pos h]
  induction q with
  | nil => simp [dict_contains] at h
  | cons kv q ih =>
    by_cases hk : kv.1 = k
    · simp [dict_get, List.find?, hk]
    · simp only [List.map_cons, if_neg hk]
      have h' : dict_contains q k = true := by
        simpa [dict_contains, hk] using h
      simpa [dict_get, List.find?, hk] using ih h'

theorem dict_pop_not_contains (q : InputQueue) (k : String)
    (h : (q.map Prod.fst).Nodup) :
    dict_contains (dict_pop q k) k = false := by
  induction q with
  | nil => simp [dict_pop, dict_contains]
  | cons kv q ih =>
    simp only [List.map_cons, List.nodup_cons] at h
    by_cases hk : kv.1 = k
    · have hd : (decide (kv.1 = k)) = true := by simp [hk]
      rw [dict_pop, List.eraseP_cons, hd, cond_true]
      rw [dict_contains_false_iff]
      intro x hx hxk
      have hx1 : x.1 ∈ q.map Prod.fst := List.mem_map_of_mem Prod.fst hx
      rw [hxk, ← hk] at hx1
      exact h.1 hx1
    · have hd : (decide (kv.1 = k)) = false := by simp [hk]
      rw [dict_pop, List.eraseP_cons, hd, cond_false]
      have := ih h.2
      rw [dict_contains_false_iff] at this ⊢
      intro x hx
      rcases List.mem_cons.1 hx with hx | hx
      · simpa [hx] using hk
      · exact this x hx

theorem keys_pop_nodup (q : InputQueue) (k : String)
    (h : (q.map Prod.fst).Nodup) :
    ((dict_pop q k).map Prod.fst).Nodup :=
  h.sublist (List.Sublist.map Prod.fst (List.eraseP_sublist q))

theorem keys_insert_nodup (q : InputQueue) (k : String) (v : Option String)
    (hc : dict_contains q k = false) (h : (q.map Prod.fst).Nodup) :
    ((dict_set q k v).map Prod.fst).Nodup := by
  rw [dict_set, if_neg (by simp [hc])]
  rw [List.map_append, List.nodup_append]
  refine ⟨h, by simp, ?_⟩
  intro a ha
  simp only [List.mem_map] at ha
  obtain ⟨kv, hkv, rfl⟩ := ha
  have := (dict_contains_false_iff q k).1 hc kv hkv
  simp [this]

theorem dict_contains_some (q : InputQueue) (k : String)
    (h : dict_contains q k = true) : ∃ w, dict_get q k = some w := by
  rw [dict_contains, List.any_eq_true] at h
  obtain ⟨kv, hmem, hp⟩ := h
  have hs : (q.find? (fun kv => decide (kv.1 = k))).isSome =  true :=
    List.find?_isSome.2 ⟨kv, hmem, hp⟩
  obtain ⟨kv2, hkv2⟩ := Option.isSome_iff_exists.1 hs
  exact ⟨kv2.2, by rw [dict_get, hkv2]; rfl⟩

theorem ask_creates_slot (now : Int) (q : InputQueue) (text : String)
    (p : ChaoxingProcess) (hm : p.console.mode = true)
    (hc : dict_contains q p.process_id = false) :
    ask now q text p =
      (if check_timeout now p then AskResult.timeoutResult else AskResult.noAnswer,
       dict_set q p.process_id none,
       if check_timeout now p then
         { p with console := consolePrint p.console text, alive := false }
       else
         { p with console := consolePrint p.console text }) := by
  rw [ask, if_pos hm]
  simp only [hc, Bool.false_eq_true, if_false, dict_get_set_none q p.process_id hc,
    Option.getD_some]
  by_cases h : check_timeout now p <;> simp [h]

theorem ask_found_answer (now : Int) (q : InputQueue) (text : String)
    (p : ChaoxingProcess) (v : String) (hm : p.console.mode = true)
    (hv : dict_get q p.process_id = some (some v)) :
    ask now q text p = (AskResult.answer v, dict_pop q p.process_id, p) := by
  have hc : dict_contains q p.process_id = true :=
    dict_get_some_contains q p.process_id (some v) hv
  rw [ask, if_pos hm]
  simp [hc, hv]

theorem ask_waiting (now : Int) (q : InputQueue) (text : String)
    (p : ChaoxingProcess) (hm : p.console.mode = true)
    (hv : dict_get q p.process_id = some none) :
    ask now q text p =
      (if check_timeout now p then AskResult.timeoutResult else AskResult.noAnswer,
       q,
       if check_timeout now p then { p with alive := false } else p) := by
  have hc : dict_contains q p.process_id = true :=
    dict_get_some_contains q p.process_id none hv
  rw [ask, if_pos hm]
  simp only [hc, if_true, hv, Option.getD_some]
  by_cases h : check_timeout now p <;> simp [h]

theorem gc_tick_singleton (now : Int) (p : ChaoxingProcess) :
    gc_tick now [p] =
      if check_timeout now p then ([], [{ p with alive := false }]) else ([p], []) := by
  by_cases h : check_timeout now p <;>
    simp [gc_tick, gc_loop, h, List.erase_cons_head]

theorem foldl_deque_append (l : List String) :
    ∀ buf : List String, buf.length ≤ 50 →
      List.foldl deque_append buf l = (buf ++ l).drop (buf.length + l.length - 50) := by
  induction l with
  | nil =>
    intro buf h
    simp [Nat.sub_eq_zero_of_le h]
  | cons x xs ih =>
    intro buf h
    rw [List.foldl_cons]
    by_cases hlt : buf.length < 50
    · have he : deque_append buf x = buf ++ [x] := by
        rw [deque_append, if_pos hlt]
      have h1 : (deque_append buf x).length ≤ 50 := by
        rw [he, List.length_append]
        simp only [List.length_cons, List.length_nil]
        omega
      rw [ih (deque_append buf x) h1, he]
      have hidx : (buf ++ [x]).length + xs.length - 50
          = buf.length + (x :: xs).length - 50 := by
        simp only [List.length_append, List.length_cons, List.length_nil]
        omega
      rw [hidx, List.append_assoc, List.singleton_append]
    · have hb : buf.length = 50 := Nat.le_antisymm h (Nat.le_of_not_lt hlt)
      obtain ⟨b, rest, rfl⟩ : ∃ b rest, buf = b :: rest := by
        cases buf with
        | nil => simp at hb
        | cons b rest => exact ⟨b, rest, rfl⟩
      have hr : rest.length = 49 := by simpa using hb
      have he : deque_append (b :: rest) x = rest ++ [x] := by
        rw [deque_append, if_neg hlt]
        rfl
      have h1 : (deque_append (b :: rest) x).length ≤ 50 := by
        rw [he, List.length_append]
        simp [hr]
      rw [ih (deque_append (b :: rest) x) h1, he]
      have hidx1 : (rest ++ [x]).length + xs.length - 50 = xs.length := by
        simp only [List.length_append, List.length_cons, List.length_nil, hr]
        omega
      have hidx2 : (b :: rest).length + (x :: xs).length - 50 = xs.length + 1 := by
        simp only [List.length_cons, hr]
        omega
      rw [hidx1, hidx2, List.append_assoc, List.singleton_append, List.cons_append,
        List.drop_succ_cons]

theorem get_update_output_web (c : ChaoxingWebConsole) (hm : c.mode = true) :
    get_update_output c =
      (some (if c.last_output = String.join c.output_collector then ""
             else String.join c.output_collector),
       { c with last_output :=
           if c.last_output = String.join c.output_collector then ""
           else String.join c.output_collector }) := by
  simp [get_update_output, hm]

/-- C1 (counterexample): in remote mode, `get_update_output` does not keep the
snapshot equal to the current full output: starting from snapshot `""` and
full output `"AB"`, the second call (no intervening append) blanks the
snapshot, so the third call returns the full output `"AB"` again instead of
the empty string, and after the second call the snapshot differs from the
full output. -/
theorem C1_update_resend_counterexample :
    ((get_update_output (get_update_output (get_update_output
        { mode := true, last_output := "", output_collector := ["AB"] }).2).2).1
      = some "AB")
    ∧ ((get_update_output (get_update_output
        { mode := true, last_output := "", output_collector := ["AB"] }).2).2).last_output
      ≠ String.join ["AB"] := by
  decide

/-- C1 (amended): in remote mode each `get_update_output` call returns the
full output when it differs from the snapshot and the empty string otherwise,
but the snapshot is set to the value just returned (so it is blanked, not
kept, on a no-change call); consequently, with no intervening append, calls
after the first alternate between empty and the full output rather than all
returning empty. -/
theorem C1_update_snapshot_amended (c : ChaoxingWebConsole) (hm : c.mode = true) :
    ((get_update_output c).1
      = some (if c.last_output = String.join c.output_collector then ""
              else String.join c.output_collector))
    ∧ ((get_update_output c).2.last_output = ((get_update_output c).1).getD "")
    ∧ ((get_update_output c).2.output_collector = c.output_collector)
    ∧ (String.join c.output_collector ≠ "" →
        c.last_output ≠ String.join c.output_collector →
          ((get_update_output c).1 = some (String.join c.output_collector)
           ∧ (get_update_output (get_update_output c).2).1 = some ""
           ∧ (get_update_output (get_update_output (get_update_output c).2).2).1
               = some (String.join c.output_collector))) := by
  obtain ⟨cm, clo, coc⟩ := c
  change cm = true at hm
  subst hm
  refine ⟨rfl, rfl, rfl, ?_⟩
  intro hne hdiff
  change clo ≠ String.join coc at hdiff
  have e1 : get_update_output ⟨true, clo, coc⟩
      = (some (String.join coc), ⟨true, String.join coc, coc⟩) := by
    simp [get_update_output, hdiff]
  have e2 : get_update_output ⟨true, String.join coc, coc⟩
      = (some "", ⟨true, "", coc⟩) := by
    simp [get_update_output]
  have e3 : get_update_output ⟨true, "", coc⟩
      = (some (String.join coc), ⟨true, String.join coc, coc⟩) := by
    simp [get_update_output, Ne.symm hne]
  exact ⟨by simp [e1], by simp [e1, e2], by simp [e1, e2, e3]⟩

/-- C1 (witness for the amended theorem): concrete run with full output
`"AB"`: returns `"AB"`, then `""`, then `"AB"` again. -/
theorem C1_update_snapshot_amended_witness :
    ((get_update_output { mode := true, last_output := "", output_collector := ["AB"] }).1
      = some (String.join ["AB"]))
    ∧ ((get_update_output (get_update_output
        { mode := true, last_output := "", output_collector := ["AB"] }).2).1 = some "") := by
  have h := (C1_update_snapshot_amended
      { mode := true, last_output := "", output_collector := ["AB"] } rfl).2.2.2
      (by decide) (by decide)
  exact ⟨h.1, h.2.1⟩

/-- C2 (failing input): a single reaper tick over two records that are both
already past their 5-minute threshold (state INIT, last refresh at 0, now
301) removes only the first one: because `GarbageCollector.run` removes from
the list it is iterating, the iterator skips the second record, which stays
in the registry with `alive = true` even though `check_timeout` held for it
at the start of the tick. -/
theorem C2_reaper_skips_record :
    gc_tick 301
        [mkProc "a" ChaoxingProcessState.INIT 0, mkProc "b" ChaoxingProcessState.INIT 0]
      = ([mkProc "b" ChaoxingProcessState.INIT 0],
         [{ mkProc "a" ChaoxingProcessState.INIT 0 with alive := false }])
    ∧ check_timeout 301 (mkProc "b" ChaoxingProcessState.INIT 0) = true
    ∧ (mkProc "b" ChaoxingProcessState.INIT 0).alive = true := by
  decide

/-- C3 (failing input): two successive `/get_process_id` requests for the
same phone starting from an empty registry return two different ids and leave
two processes: `create_process` never stores the phone (the created record's
`phone` is `None`), so the second lookup misses again. -/
theorem C3_get_process_id_not_idempotent :
    (app_get_process_id 0 "id-a" [] "13800000000").1 = "id-a"
    ∧ (app_get_process_id 5 "id-b"
        (app_get_process_id 0 "id-a" [] "13800000000").2 "13800000000").1 = "id-b"
    ∧ (app_get_process_id 5 "id-b"
        (app_get_process_id 0 "id-a" [] "13800000000").2 "13800000000").2.length = 2
    ∧ get_process_id (app_get_process_id 0 "id-a" [] "13800000000").2 "13800000000" = none := by
  decide

/-- C4 (counterexample): when the process is already past its idle threshold
(state INIT, last refresh 0, now 301), the very `ask` call that creates the
pending slot (the queue was empty before) returns TIMEOUT, not the
"no answer yet" indicator. -/
theorem C4_ask_timeout_on_creating_call :
    dict_contains [] "p" = false
    ∧ (ask 301 [] "question" (mkProc "p" ChaoxingProcessState.INIT 0)).1
        = AskResult.timeoutResult := by
  decide

/-- C4 (amended): an `ask` call for a process id with no pending slot creates
the slot (unset value) and emits the prompt text into the process's output
capture; it returns the "no answer yet" indicator when the process's idle
time is within its state's threshold, but when the idle time already exceeds
the threshold the same call returns TIMEOUT and sets `alive = false` (the
slot having been created either way). -/
theorem C4_ask_creates_slot_amended (now : Int) (q : InputQueue) (text : String)
    (p : ChaoxingProcess) (hm : p.console.mode = true)
    (hc : dict_contains q p.process_id = false) :
    (check_timeout now p = false →
       ask now q text p
         = (AskResult.noAnswer, dict_set q p.process_id none,
            { p with console := consolePrint p.console text }))
    ∧ (check_timeout now p = true →
       ask now q text p
         = (AskResult.timeoutResult, dict_set q p.process_id none,
            { p with console := consolePrint p.console text, alive := false })) := by
  constructor <;> intro h <;> rw [ask_creates_slot now q text p hm hc] <;> simp [h]

/-- C4 (witness): a fresh, not-timed-out process (now 0, last refresh 0) gets
`noAnswer` from the slot-creating call, with the slot inserted and the prompt
captured. -/
theorem C4_ask_creates_slot_amended_witness :
    ask 0 [] "question" (mkProc "p" ChaoxingProcessState.INIT 0)
      = (AskResult.noAnswer, dict_set [] "p" none,
         { mkProc "p" ChaoxingProcessState.INIT 0 with
             console := consolePrint (mkProc "p" ChaoxingProcessState.INIT 0).console
               "question" }) := by
  exact (C4_ask_creates_slot_amended 0 [] "question"
    (mkProc "p" ChaoxingProcessState.INIT 0) rfl (by decide)).1 (by decide)

/-- C5 (counterexample): after `ask` returns TIMEOUT the pending slot for the
process id is NOT removed: with an empty queue and an already-timed-out
process, the call returns TIMEOUT and the resulting queue still contains a
slot for `"p"`. -/
theorem C5_slot_survives_timeout :
    (ask 301 [] "question" (mkProc "p" ChaoxingProcessState.INIT 0)).1
        = AskResult.timeoutResult
    ∧ dict_contains (ask 301 [] "question" (mkProc "p" ChaoxingProcessState.INIT 0)).2.1 "p"
        = true := by
  decide

/-- C5 (amended): the queue keeps at most one pending slot per process id
(key uniqueness is preserved by `ask`), and when `ask` returns a posted
answer the slot is removed in the same step (so no answer is delivered
twice); but after `ask` returns TIMEOUT the slot for that id remains in the
map. -/
theorem C5_slot_lifecycle_amended (now : Int) (q : InputQueue) (text : String)
    (p : ChaoxingProcess) (v : String) :
    ((q.map Prod.fst).Nodup → (((ask now q text p).2.1).map Prod.fst).Nodup)
    ∧ (p.console.mode = true → (q.map Prod.fst).Nodup →
        dict_get q p.process_id = some (some v) →
        (ask now q text p).1 = AskResult.answer v
        ∧ dict_contains (ask now q text p).2.1 p.process_id = false)
    ∧ (p.console.mode = true → dict_get q p.process_id = some none →
        check_timeout now p = true →
        (ask now q text p).1 = AskResult.timeoutResult
        ∧ dict_contains (ask now q text p).2.1 p.process_id = true) := by
  refine ⟨?_, ?_, ?_⟩
  · intro hnd
    by_cases hm : p.console.mode = true
    · by_cases hc : dict_contains q p.process_id = true
      · obtain ⟨w, hw⟩ := dict_contains_some q p.process_id hc
        cases w with
        | none =>
          rw [ask_waiting now q text p hm hw]
          by_cases h : check_timeout now p <;> simp [h, hnd]
        | some v' =>
          rw [ask_found_answer now q text p v' hm hw]
          exact keys_pop_nodup q p.process_id hnd
      · have hc' : dict_contains q p.process_id = false := by
          simpa using hc
        rw [ask_creates_slot now q text p hm hc']
        by_cases h : check_timeout now p <;>
          simpa [h] using keys_insert_nodup q p.process_id none hc' hnd
    · rw [ask, if_neg hm]
      exact hnd
  · intro hm hnd hv
    rw [ask_found_answer now q text p v hm hv]
    exact ⟨rfl, dict_pop_not_contains q p.process_id hnd⟩
  · intro hm hv ht
    rw [ask_waiting now q text p hm hv, ht]
    exact ⟨by simp, by simpa using dict_get_some_contains q p.process_id none hv⟩

/-- C5 (witness): a posted answer `"ans"` is returned by `ask` and its slot
is removed in the same step. -/
theorem C5_slot_lifecycle_amended_witness :
    (ask 0 [("p", some "ans")] "t" (mkProc "p" ChaoxingProcessState.INIT 0)).1
        = AskResult.answer "ans"
    ∧ dict_contains
        (ask 0 [("p", some "ans")] "t" (mkProc "p" ChaoxingProcessState.INIT 0)).2.1 "p"
        = false := by
  have h := (C5_slot_lifecycle_amended 0 [("p", some "ans")] "t"
      (mkProc "p" ChaoxingProcessState.INIT 0) "ans").2.1 rfl (by decide) (by decide)
  exact ⟨h.1, h.2⟩

/-- C6 (confirmed): the idle-timeout predicate `check_timeout` holds iff the
idle time `now - last_refresh_time` strictly exceeds 86400 seconds for a
RUNNING process and strictly exceeds 300 seconds for any other state; at an
idle time exactly equal to the threshold the process is retained.  The same
predicate drives `ask` (which returns TIMEOUT and clears `alive` exactly when
it holds, given an unanswered slot) and the reaper sweep (a lone record is
reclaimed iff it holds). -/
theorem C6_timeout_thresholds (now : Int) (p : ChaoxingProcess) (q : InputQueue)
    (text : String) :
    (check_timeout now p = true ↔
      ((p.state = ChaoxingProcessState.RUNNING ∧ now - p.last_refresh_time > 86400)
       ∨ (p.state ≠ ChaoxingProcessState.RUNNING ∧ now - p.last_refresh_time > 300)))
    ∧ (p.state = ChaoxingProcessState.RUNNING → now - p.last_refresh_time = 86400 →
        check_timeout now p = false)
    ∧ (p.state ≠ ChaoxingProcessState.RUNNING → now - p.last_refresh_time = 300 →
        check_timeout now p = false)
    ∧ (p.console.mode = true → dict_get q p.process_id = some none →
        (((ask now q text p).1 = AskResult.timeoutResult ↔ check_timeout now p = true)
         ∧ (check_timeout now p = true → (ask now q text p).2.2.alive = false)))
    ∧ (gc_tick now [p]
        = if check_timeout now p then ([], [{ p with alive := false }]) else ([p], [])) := by
  refine ⟨?_, ?_, ?_, ?_, gc_tick_singleton now p⟩
  · by_cases hs : p.state = ChaoxingProcessState.RUNNING <;>
      simp [check_timeout, hs]
  · intro hs he
    simp [check_timeout, hs, he]
  · intro hs he
    simp [check_timeout, hs, he]
  · intro hm hv
    rw [ask_waiting now q text p hm hv]
    by_cases h : check_timeout now p <;> simp [h]

/-- C6 (witness): boundary values: a RUNNING process at exactly 86400 seconds
idle and an INIT process at exactly 300 seconds idle are both retained. -/
theorem C6_timeout_thresholds_witness :
    check_timeout 86400 (mkProc "r" ChaoxingProcessState.RUNNING 0) = false
    ∧ check_timeout 300 (mkProc "i" ChaoxingProcessState.INIT 0) = false := by
  refine ⟨(C6_timeout_thresholds 86400
      (mkProc "r" ChaoxingProcessState.RUNNING 0) [] "t").2.1 rfl (by decide),
    (C6_timeout_thresholds 300
      (mkProc "i" ChaoxingProcessState.INIT 0) [] "t").2.2.1 (by decide) (by decide)⟩

/-- C7 (confirmed): the output buffer never holds more than 50 fragments
(appending to a buffer within capacity stays within capacity), appending 51
fragments to an empty buffer leaves exactly the last 50 in print order (the
oldest fragment is dropped), and `get_output` in web mode concatenates the
retained fragments oldest to newest. -/
theorem C7_buffer_capacity :
    (∀ (buf : List String) (s : String), buf.length ≤ 50 →
        (deque_append buf s).length ≤ 50)
    ∧ (∀ l : List String, l.length = 51 →
        List.foldl deque_append [] l = l.drop 1)
    ∧ (∀ c : ChaoxingWebConsole, c.mode = true →
        get_output c = some (String.join c.output_collector)) := by
  refine ⟨?_, ?_, ?_⟩
  · intro buf s h
    rw [deque_append]
    by_cases hlt : buf.length < 50
    · rw [if_pos hlt]
      rw [List.length_append]
      simp only [List.length_cons, List.length_nil]
      omega
    · rw [if_neg hlt]
      rw [List.length_append, List.length_drop]
      simp only [List.length_cons, List.length_nil]
      omega
  · intro l hl
    have h := foldl_deque_append l [] (by simp)
    rw [h]
    simp [hl]
  · intro c hm
    rw [get_output, if_pos hm]

/-- C7 (witness): appending 51 concrete fragments leaves the last 50. -/
theorem C7_buffer_capacity_witness :
    List.foldl deque_append [] (List.replicate 51 "x")
      = (List.replicate 51 "x").drop 1 :=
  C7_buffer_capacity.2.1 (List.replicate 51 "x") (by simp)

/-- C8 (confirmed): `send_value` on a process id with no pending slot leaves
the input queue unchanged (it never creates a slot implicitly), so a
subsequent `ask` for that id still answers "no answer yet" (for a process
within its idle threshold) rather than delivering a value; when a pending
slot does exist, `send_value` sets its value. -/
theorem C8_send_value_no_slot (q : InputQueue) (pid v : String) (now : Int)
    (text : String) (p : ChaoxingProcess) :
    (dict_contains q pid = false → send_value q pid v = q)
    ∧ (dict_contains q pid = true →
        dict_get (send_value q pid v) pid = some (some v))
    ∧ (dict_contains q p.process_id = false → p.console.mode = true →
        check_timeout now p = false →
        (ask now (send_value q p.process_id v) text p).1 = AskResult.noAnswer) := by
  refine ⟨?_, ?_, ?_⟩
  · intro h
    rw [send_value, if_neg (by simp [h])]
  · intro h
    rw [send_value, if_pos h]
    exact dict_get_set_of_contains q pid (some v) h
  · intro hc hm ht
    rw [send_value, if_neg (by simp [hc])]
    rw [ask_creates_slot now q text p hm hc]
    simp [ht]

/-- C8 (witness): posting to an empty queue changes nothing, and the next
`ask` still reports "no answer yet". -/
theorem C8_send_value_no_slot_witness :
    send_value [] "p" "42" = []
    ∧ (ask 0 (send_value [] "p" "42") "question"
        (mkProc "p" ChaoxingProcessState.INIT 0)).1 = AskResult.noAnswer := by
  have h := C8_send_value_no_slot [] "p" "42" 0 "question"
    (mkProc "p" ChaoxingProcessState.INIT 0)
  exact ⟨h.1 (by decide), h.2.2 (by decide) rfl (by decide)⟩

/-- C9 (counterexample): the exposed operation `to_init` takes a RUNNING
record back to INIT, which is not a forward transition along
Init -> Running -> (Success | Failed). -/
theorem C9_backward_transition :
    (to_init (mkProc "p" ChaoxingProcessState.RUNNING 0)).state
        = ChaoxingProcessState.INIT
    ∧ state_le (mkProc "p" ChaoxingProcessState.RUNNING 0).state
        (to_init (mkProc "p" ChaoxingProcessState.RUNNING 0)).state = false := by
  decide

/-- C9 (amended): each exposed state-changing operation sets the state
unconditionally to a fixed target (`to_running` -> RUNNING,
`to_success` -> SUCCESS, `to_failed` -> Failed, `to_init` -> INIT), with no
guard on the current state; in particular `to_init` applied to a RUNNING
record yields a backward (non-forward) transition, so the forward-only
property fails for the exposed operation set. -/
theorem C9_state_setters_amended (p : ChaoxingProcess) :
    (to_running p).state = ChaoxingProcessState.RUNNING
    ∧ (to_success p).state = ChaoxingProcessState.SUCCESS
    ∧ (to_failed p).state = ChaoxingProcessState.Failed
    ∧ (to_init p).state = ChaoxingProcessState.INIT
    ∧ (p.state = ChaoxingProcessState.RUNNING →
        state_le p.state (to_init p).state = false) := by
  refine ⟨rfl, rfl, rfl, rfl, ?_⟩
  intro h
  rw [h]
  rfl

/-- C9 (witness): the backward step observed on a concrete RUNNING record. -/
theorem C9_state_setters_amended_witness :
    state_le (mkProc "q" ChaoxingProcessState.RUNNING 0).state
      (to_init (mkProc "q" ChaoxingProcessState.RUNNING 0)).state = false :=
  (C9_state_setters_amended (mkProc "q" ChaoxingProcessState.RUNNING 0)).2.2.2.2 rfl

/-- C10 (confirmed): for a process id not present in the registry,
`get_process` returns `None` rather than faulting; the `/get_process_output`
endpoint dereferences that `None` without a guard, so it faults
(`Except.error`) instead of returning a string, while the
`/update_process_refresh_time` heartbeat endpoint checks for the missing
record and returns an error status with the registry unchanged. -/
theorem C10_missing_process_handling (tasks : List ChaoxingProcess) (pid : String)
    (now : Int) (h : ∀ t ∈ tasks, t.process_id ≠ pid) :
    get_process tasks pid = none
    ∧ get_process_output tasks pid = Except.error ()
    ∧ update_process_refresh_time now tasks pid = ("error", tasks) := by
  have hp : get_process tasks pid = none := by
    rw [get_process, List.find?_eq_none]
    intro x hx
    simp [h x hx]
  refine ⟨hp, ?_, ?_⟩
  · rw [get_process_output, hp]
  · rw [update_process_refresh_time, hp]

/-- C10 (witness): a registry holding only process `"a"` queried for `"b"`. -/
theorem C10_missing_process_handling_witness :
    get_process [mkProc "a" ChaoxingProcessState.INIT 0] "b" = none
    ∧ get_process_output [mkProc "a" ChaoxingProcessState.INIT 0] "b"
        = Except.error ()
    ∧ update_process_refresh_time 7 [mkProc "a" ChaoxingProcessState.INIT 0] "b"
        = ("error", [mkProc "a" ChaoxingProcessState.INIT 0]) :=
  C10_missing_process_handling [mkProc "a" ChaoxingProcessState.INIT 0] "b" 7 (by decide)

end CxKitty
